import Mathlib

/-!
Shallow embedding of the AWS Lambda S3 data pipeline (`src/main.py`) and
verification of its specification claims.

External effects are modelled by explicit "world" parameters:
* the process environment is a function `String → Option String` (`os.getenv`);
* the sequence of HTTP responses is a function `Nat → Nat` giving the status
  code of the i-th request issued by the session, together with the JSON parse
  result of the body of the response that is finally returned to the caller;
* the sequence of S3 `put_object` outcomes is a function `Nat → UploadOutcome`
  (success, an SDK-level error `BotoCoreError/ClientError`, or an exception of
  any other class);
* SNS publishing is observed as a trace of notification calls (the source
  swallows every publish error, so the publish outcome is irrelevant).

Machine-level caveats of the source that the model reflects:
* `urllib3.util.retry.Retry(total=3, backoff_factor=2, status_forcelist=[500,
  502, 503, 504])` performs up to 3 *retries*, i.e. up to 4 requests, sleeping
  `2 * 2 ^ k` before the (k+1)-th retry, and raises `MaxRetryError` (surfaced
  by requests as a `RetryError`, a `RequestException`) once exhausted;
* the retry adapter is mounted only for the `"https://"` URL prefix; other
  URLs use the default adapter, which has no retries and no status forcelist;
* `pandas` evaluates `df['price'] > 50` columnwise: a missing value in an
  otherwise numeric column becomes `NaN` and compares `False`, while a string
  value (or a column with no numeric value at all) gives the column `object`
  dtype and the comparison raises `TypeError`, caught by the blanket
  `except Exception` of `process_data`;
* `upload_to_s3` catches only `(BotoCoreError, ClientError)`; an exception of
  any other class raised by the storage call propagates out of the function
  and out of `lambda_handler`.
-/

set_option maxHeartbeats 1000000

namespace Pipeline

/-- Decidable equality for `Except`, used to evaluate the model on concrete
inputs. -/
instance {ε : Type u} {α : Type v} [DecidableEq ε] [DecidableEq α] :
    DecidableEq (Except ε α) := fun a b =>
  match a, b with
  | .error e, .error e' =>
    if h : e = e' then isTrue (congrArg Except.error h)
    else isFalse (fun hh => h (Except.error.inj hh))
  | .ok x, .ok y =>
    if h : x = y then isTrue (congrArg Except.ok h)
    else isFalse (fun hh => h (Except.ok.inj hh))
  | .error _, .ok _ => isFalse (fun hh => Except.noConfusion hh)
  | .ok _, .error _ => isFalse (fun hh => Except.noConfusion hh)

/-- JSON-like scalar values appearing as fields of a record. -/
inductive Scalar where
  | num (n : Int)
  | str (s : String)
  | null
deriving DecidableEq

/-- A raw record: a parsed JSON object, i.e. an association list from field
names to scalars (JSON objects have no duplicate keys after parsing). -/
abbrev Record := List (String × Scalar)

/-- The serialized tabular payload written by `df_filtered.to_csv(txt_buffer,
sep="\t", index=False)`: a header row of column names followed by one row per
kept record; a cell is `none` where the record has no value for the column
(pandas `NaN`, serialized as the empty string). -/
structure Payload where
  header : List String
  rows : List (List (Option Scalar))
deriving DecidableEq

/-- Truthiness of an `os.getenv` result: `None` and the empty string are
falsy (`if not os.getenv(var)`). -/
def truthyEnv : Option String → Bool
  | none => false
  | some s => s != ""

/-- `validate_environment_vars(required_vars)` from `src/main.py`: collects
the names whose value is missing (falsy) and returns `None` if any is,
otherwise the resolved mapping. -/
def validate_environment_vars (getenv : String → Option String)
    (required_vars : List String) : Option (List (String × String)) :=
  let missing_vars := required_vars.filter (fun v => !(truthyEnv (getenv v)))
  if missing_vars ≠ [] then none
  else some (required_vars.map (fun v => (v, (getenv v).getD "")))

/-! ## Step 1: `fetch_data_with_retry` -/

/-- The `status_forcelist` of the mounted `Retry` object. -/
def statusForcelist : List Nat := [500, 502, 503, 504]

/-- One urllib3 `urlopen` with retries: `ω` gives the status code of each
request (indexed from `i`), `fl` is the adapter's status forcelist and the
`Nat` argument the remaining `total` retry budget.  Returns the status of the
response finally handed to requests (`none` when the budget is exhausted and
`MaxRetryError` is raised), the number of requests issued, and the backoff
sleeps (`backoff_factor * 2 ^ k = 2 * 2 ^ k` before the (k+1)-th retry). -/
def retryLoop (fl : List Nat) (ω : Nat → Nat) (i : Nat) :
    Nat → Option Nat × Nat × List Nat
  | 0 =>
    if fl.contains (ω i) then (none, 1, [])
    else (some (ω i), 1, [])
  | t + 1 =>
    if fl.contains (ω i) then
      let r := retryLoop fl ω (i + 1) t
      (r.1, r.2.1 + 1, (2 * 2 ^ i) :: r.2.2)
    else (some (ω i), 1, [])

/-- Result of one call to `fetch_data_with_retry`: the returned value
(`None` on any error) plus the observable request count and backoff sleeps. -/
structure FetchResult where
  data : Option (List Record)
  requests : Nat
  sleeps : List Nat
deriving DecidableEq

/-- `fetch_data_with_retry(api_url)` from `src/main.py`.  The session mounts
`HTTPAdapter(max_retries=Retry(total=3, backoff_factor=2, status_forcelist=
[500, 502, 503, 504], allowed_methods=["GET"]))` for the `"https://"` prefix
only; other URLs resolve to the default adapter (no retries, empty
forcelist).  After the transport returns a response, `raise_for_status`
raises `HTTPError` for 4xx/5xx (caught, `None`); otherwise the body is parsed
as JSON (`parsed`; `none` models a `ValueError`, logged and `None`
returned).  An exhausted retry budget raises `RetryError`, caught by the
`RequestException` handler (`None`). -/
def fetch_data_with_retry (api_url : String) (ω : Nat → Nat)
    (parsed : Option (List Record)) : FetchResult :=
  let mounted := "https://".toList.isPrefixOf api_url.toList
  let fl := if mounted then statusForcelist else []
  let total := if mounted then 3 else 0
  let r := retryLoop fl ω 0 total
  match r.1 with
  | none => ⟨none, r.2.1, r.2.2⟩
  | some s =>
    if 400 ≤ s ∧ s < 600 then ⟨none, r.2.1, r.2.2⟩
    else ⟨parsed, r.2.1, r.2.2⟩

/-! ## Step 2: `process_data` -/

/-- Internal error of `process_data`, made explicit: the `ValueError("No data
provided for processing")` raised on an empty/absent input, the `KeyError`
raised by `df['price']` when no record has the field, and the `TypeError`
raised by the pandas comparison `df['price'] > 50` on an `object`-dtype
column (some value is a string, or no value is numeric).  All three are
caught inside `process_data`, which then returns `None`. -/
inductive PErr where
  | emptyInput
  | keyError
  | typeError
deriving DecidableEq

/-- Column order of `pd.DataFrame(data)` for a list of dicts: union of the
records' keys in order of first appearance. -/
def keyCols (kss : List (List String)) : List String :=
  kss.foldl (fun acc ks =>
    ks.foldl (fun a k => if a.contains k then a else a ++ [k]) acc) []

/-- Columns of the DataFrame built from `l`. -/
def colsOf (l : List Record) : List String :=
  keyCols (l.map (fun r => r.map Prod.fst))

/-- The row filter `df['price'] > 50` for a single record of a numeric
(`float64`) column: a missing or null field is `NaN` and compares `False`. -/
def passesFilter (r : Record) : Bool :=
  match List.lookup "price" r with
  | some (.num n) => decide (50 < n)
  | _ => false

/-- One serialized row of the filtered DataFrame. -/
def rowOf (cols : List String) (r : Record) : List (Option Scalar) :=
  cols.map (fun c => List.lookup c r)

/-- The record has a `price` field (with any value). -/
def hasPrice (r : Record) : Bool := (List.lookup "price" r).isSome

/-- The record's `price` field holds a string. -/
def isStrPrice (r : Record) : Bool :=
  match List.lookup "price" r with
  | some (.str _) => true
  | _ => false

/-- The record's `price` field holds a number. -/
def isNumPrice (r : Record) : Bool :=
  match List.lookup "price" r with
  | some (.num _) => true
  | _ => false

/-- `process_data(data)` from `src/main.py` with the caught error made
explicit.  `none`/`some []` is the falsy input of `if not data` (the
`ValueError` branch).  Otherwise the DataFrame is built; `df['price']`
raises `KeyError` unless some record has the field; the comparison
`df['price'] > 50` raises `TypeError` when the column has `object` dtype
(some value a string, or values present but none numeric); otherwise the
column is numeric (`float64`), missing/null cells are `NaN` (filtered out),
and the filtered frame is serialized. -/
def processDataE (data : Option (List Record)) : Except PErr Payload :=
  match data with
  | none => .error .emptyInput
  | some [] => .error .emptyInput
  | some (r₀ :: rest) =>
    let l := r₀ :: rest
    if !(l.any hasPrice) then
      .error .keyError
    else if l.any isStrPrice then
      .error .typeError
    else if !(l.any isNumPrice) then
      .error .typeError
    else
      .ok ⟨colsOf l, (l.filter passesFilter).map (rowOf (colsOf l))⟩

/-- `process_data(data)` as seen by the caller: the payload buffer, or `None`
when any of the internal errors was raised and caught. -/
def process_data (data : Option (List Record)) : Option Payload :=
  (processDataE data).toOption

/-! ## Step 3: `upload_to_s3` -/

/-- Outcome of one `s3_client.put_object` call: success, an SDK-level error
(`BotoCoreError` or `ClientError`, the only classes the source catches), or
an exception of any other class. -/
inductive UploadOutcome where
  | ok
  | botoErr
  | otherExc
deriving DecidableEq

/-- The only exception class that can escape the modelled code: a
non-`BotoCoreError`/`ClientError` exception raised by the storage call, which
`upload_to_s3` does not catch. -/
inductive Exc where
  | otherExc
deriving DecidableEq

/-- Observables of one upload attempt: the buffer position at the time of the
send (`txt_buffer.seek(0)` runs first, so it is always `0`) and the body
actually sent (`txt_buffer.getvalue()`, the full content). -/
structure Attempt where
  posAtSend : Nat
  body : Payload
deriving DecidableEq

/-- The `for attempt in range(1, retries + 1)` loop of `upload_to_s3`.
`a` is the current (1-based) attempt number and the last argument the number
of iterations left.  Each iteration seeks the buffer to `0` and sends the
full content; on success it returns `"upload_successful"`; on an SDK error it
sleeps `delay` and continues if attempts remain, else returns
`"upload_failed"`; an exception of any other class propagates
(`Except.error`).  Falling out of the loop (possible only when `retries = 0`)
reproduces Python's implicit `return None`. -/
def uploadLoop (ω : Nat → UploadOutcome) (content : Payload) (delay : Nat)
    (a : Nat) : Nat → Except Exc (Option String) × List Attempt × List Nat
  | 0 => (.ok none, [], [])
  | rem + 1 =>
    let att : Attempt := ⟨0, content⟩
    match ω a with
    | .ok => (.ok (some "upload_successful"), [att], [])
    | .botoErr =>
      match rem with
      | 0 => (.ok (some "upload_failed"), [att], [])
      | r + 1 =>
        let nxt := uploadLoop ω content delay (a + 1) (r + 1)
        (nxt.1, att :: nxt.2.1, delay :: nxt.2.2)
    | .otherExc => (.error .otherExc, [att], [])

/-- Result of one call to `upload_to_s3`: the returned status string (or the
propagated exception), the attempt trace, and the sleeps between attempts. -/
structure UploadResult where
  result : Except Exc (Option String)
  attempts : List Attempt
  sleeps : List Nat
deriving DecidableEq

/-- `upload_to_s3(txt_buffer, bucket_name, s3_key, retries, delay)` from
`src/main.py` (the caller leaves the defaults `retries=3, delay=5`).  The
bucket and key do not influence the modelled observables. -/
def upload_to_s3 (ω : Nat → UploadOutcome) (content : Payload)
    (retries delay : Nat) : UploadResult :=
  let r := uploadLoop ω content delay 1 retries
  ⟨r.1, r.2.1, r.2.2⟩

/-! ## Steps 4 and 5: `lambda_handler` and the SNS notifiers -/

/-- A notification call issued by the handler, with its subject kind
(`"Data Pipeline Failure Notification"` vs `"Data Pipeline Success
Notification"`) and message.  Whether the publish itself succeeds is
irrelevant: both notifiers swallow every exception and a missing
`SNS_TOPIC_ARN` only turns the publish into a logged no-op. -/
inductive Notification where
  | failure (msg : String)
  | success (msg : String)
deriving DecidableEq

/-- `notify_failure(message)`: observed as one failure notification call. -/
def notify_failure (msg : String) : Notification := .failure msg

/-- `notify_success(message)`: observed as one success notification call. -/
def notify_success (msg : String) : Notification := .success msg

/-- The external world of one invocation: the process environment, the HTTP
status of each request the session issues, the JSON parse result of the
response body finally returned, and the outcome of each `put_object`
attempt (1-based). -/
structure World where
  env : String → Option String
  status : Nat → Nat
  parsed : Option (List Record)
  upload : Nat → UploadOutcome

/-- The structured result dict returned by `lambda_handler`. -/
structure Response where
  statusCode : Nat
  body : String
deriving DecidableEq

/-- Everything observable about one invocation of `lambda_handler`: the
returned value (`Except.error` when an exception escapes; `none` for a path
returning Python's implicit `None`) and the trace of notification calls. -/
structure RunResult where
  outcome : Except Exc (Option Response)
  notifications : List Notification
deriving DecidableEq

/-- The four required environment variables. -/
def requiredVars : List String := ["API_URL", "S3_BUCKET", "S3_KEY", "SNS_TOPIC_ARN"]

/-- Truthiness of `raw_data` in `if not raw_data`: `None` and the empty list
are falsy, a non-empty list truthy. -/
def truthyData : Option (List Record) → Bool
  | none => false
  | some [] => false
  | some (_ :: _) => true

/-- `lambda_handler(event, context)` from `src/main.py`.  The event and
context are unused by the source; every external effect comes from `w`. -/
def lambda_handler (w : World) : RunResult :=
  match validate_environment_vars w.env requiredVars with
  | none =>
    ⟨.ok (some ⟨500, "Missing required environment variables."⟩),
      [notify_failure "❌ Missing required environment variables."]⟩
  | some _ =>
    let fr := fetch_data_with_retry ((w.env "API_URL").getD "") w.status w.parsed
    if !(truthyData fr.data) then
      ⟨.ok (some ⟨500, "Data fetch failed."⟩),
        [notify_failure "❌ Data pipeline failed at the Fetch Data stage."]⟩
    else
      match process_data fr.data with
      | none =>
        ⟨.ok (some ⟨500, "Data processing failed."⟩),
          [notify_failure "❌ Data pipeline failed at the Process Data stage."]⟩
      | some txt_buffer =>
        let up := upload_to_s3 w.upload txt_buffer 3 5
        match up.result with
        | .error e => ⟨.error e, []⟩
        | .ok st =>
          if st = some "upload_failed" then
            ⟨.ok (some ⟨500, "S3 upload failed."⟩),
              [notify_failure "❌ Data pipeline failed during S3 upload."]⟩
          else if st = some "upload_successful" then
            ⟨.ok (some ⟨200, "Pipeline completed successfully."⟩),
              [notify_success "🏁 ✅ All pipeline processes completed successfully!"]⟩
          else
            ⟨.ok none, []⟩

/-! ## Spec-side stage predicates (for the Orchestrator claims)

These follow the spec's wording ("all four stages succeed") rather than the
source, and are compared with the source-derived `lambda_handler`. -/

/-- The empty payload, used where the upload status (which is independent of
the buffer content) is stated without reference to a particular payload. -/
def emptyPayload : Payload := ⟨[], []⟩

/-- Spec: the Environment Validator stage succeeds. -/
def validateOk (w : World) : Prop :=
  (validate_environment_vars w.env requiredVars).isSome = true

/-- The value the Fetcher stage hands to the orchestrator. -/
def fetchData (w : World) : Option (List Record) :=
  (fetch_data_with_retry ((w.env "API_URL").getD "") w.status w.parsed).data

/-- Spec: the Fetcher stage succeeds (returns a parsed value). -/
def fetchOk (w : World) : Prop := (fetchData w).isSome = true

/-- Spec: the Transformer stage succeeds on the fetched data. -/
def transformOk (w : World) : Prop :=
  ∃ p, processDataE (fetchData w) = .ok p

/-- Spec: the Uploader stage succeeds (its status does not depend on the
payload content, so the empty payload stands in for it). -/
def uploadOk (w : World) : Prop :=
  (upload_to_s3 w.upload emptyPayload 3 5).result = .ok (some "upload_successful")


/-! ## Helper lemmas -/

theorem isStrPrice_iff {r : Record} :
    isStrPrice r = true ↔ ∃ s, List.lookup "price" r = some (Scalar.str s) := by
  unfold isStrPrice
  rcases h : List.lookup "price" r with _ | v
  · simp
  · cases v <;> simp

theorem isNumPrice_iff {r : Record} :
    isNumPrice r = true ↔ ∃ n, List.lookup "price" r = some (Scalar.num n) := by
  unfold isNumPrice
  rcases h : List.lookup "price" r with _ | v
  · simp
  · cases v <;> simp

theorem hasPrice_of_isNumPrice {r : Record} (h : isNumPrice r = true) :
    hasPrice r = true := by
  rcases isNumPrice_iff.mp h with ⟨n, hn⟩
  simp [hasPrice, hn]

theorem hasPrice_of_isStrPrice {r : Record} (h : isStrPrice r = true) :
    hasPrice r = true := by
  rcases isStrPrice_iff.mp h with ⟨s, hs⟩
  simp [hasPrice, hs]

/-- The success shape of `processDataE` on a non-empty batch whose `price`
column is numeric (`float64`): some record has a numeric price, none has a
string price. -/
theorem processDataE_ok_of_numeric {l : List Record} (hne : l ≠ [])
    (hstr : l.any isStrPrice = false) (hnum : l.any isNumPrice = true) :
    processDataE (some l) =
      .ok ⟨colsOf l, (l.filter passesFilter).map (rowOf (colsOf l))⟩ := by
  obtain ⟨r₀, rest, rfl⟩ : ∃ a b, l = a :: b := by
    cases l with
    | nil => exact absurd rfl hne
    | cons a b => exact ⟨a, b, rfl⟩
  have hhas : (r₀ :: rest).any hasPrice = true := by
    rcases List.any_eq_true.mp hnum with ⟨r, hr, hnr⟩
    exact List.any_eq_true.mpr ⟨r, hr, hasPrice_of_isNumPrice hnr⟩
  simp [processDataE, hhas, hstr, hnum]

/-- The header of any payload `processDataE` produces is the DataFrame's
column list. -/
theorem processDataE_header {l : List Record} {p : Payload}
    (h : processDataE (some l) = .ok p) : p.header = colsOf l := by
  cases l with
  | nil => exact absurd h (by simp [processDataE])
  | cons r₀ rest =>
    revert h
    simp only [processDataE]
    split
    · intro h; exact absurd h (by simp)
    · split
      · intro h; exact absurd h (by simp)
      · split
        · intro h; exact absurd h (by simp)
        · intro h
          cases h
          rfl

/-- A falsy fetch result is exactly the empty-input error of the
Transformer. -/
theorem processDataE_of_not_truthy {d : Option (List Record)}
    (h : truthyData d = false) : processDataE d = .error .emptyInput := by
  match d with
  | none => rfl
  | some [] => rfl
  | some (_ :: _) => simp [truthyData] at h

theorem isSome_of_truthy {d : Option (List Record)}
    (h : truthyData d = true) : d.isSome = true := by
  match d with
  | none => simp [truthyData] at h
  | some l => rfl

/-- The status returned by the upload loop does not depend on the buffer
content. -/
theorem uploadLoop_fst_content (ω : Nat → UploadOutcome) (d : Nat) :
    ∀ rem a (c c' : Payload),
      (uploadLoop ω c d a rem).1 = (uploadLoop ω c' d a rem).1 := by
  intro rem
  induction rem with
  | zero => intro a c c'; rfl
  | succ n ih =>
    intro a c c'
    cases n with
    | zero => cases hω : ω a <;> simp [uploadLoop, hω]
    | succ r =>
      cases hω : ω a with
      | ok => simp [uploadLoop, hω]
      | otherExc => simp [uploadLoop, hω]
      | botoErr => simp [uploadLoop, hω]; exact ih (a + 1) c c'

/-- When no consulted attempt raises a non-SDK exception, the loop returns
one of the two terminal status strings. -/
theorem uploadLoop_terminal (ω : Nat → UploadOutcome) (c : Payload) (d : Nat) :
    ∀ rem a, 1 ≤ rem → (∀ b, a ≤ b → b < a + rem → ω b ≠ .otherExc) →
      ∃ s, (uploadLoop ω c d a rem).1 = .ok (some s) ∧
        (s = "upload_successful" ∨ s = "upload_failed") := by
  intro rem
  induction rem with
  | zero => intro a h1 _; omega
  | succ n ih =>
    intro a _ hb
    cases n with
    | zero =>
      cases hω : ω a with
      | ok => exact ⟨"upload_successful", by simp [uploadLoop, hω], Or.inl rfl⟩
      | otherExc => exact absurd hω (hb a le_rfl (by omega))
      | botoErr => exact ⟨"upload_failed", by simp [uploadLoop, hω], Or.inr rfl⟩
    | succ r =>
      cases hω : ω a with
      | ok => exact ⟨"upload_successful", by simp [uploadLoop, hω], Or.inl rfl⟩
      | otherExc => exact absurd hω (hb a le_rfl (by omega))
      | botoErr =>
        obtain ⟨s, hs, hc⟩ :=
          ih (a + 1) (by omega) (fun b h1 h2 => hb b (by omega) (by omega))
        exact ⟨s, by simp [uploadLoop, hω]; exact hs, hc⟩

/-- When every attempt in the budget hits an SDK error, the loop performs all
attempts, sleeps `d` between consecutive attempts, and gives up. -/
theorem uploadLoop_all_botoErr (ω : Nat → UploadOutcome) (c : Payload) (d : Nat) :
    ∀ t a, (∀ b, a ≤ b → b ≤ a + t → ω b = .botoErr) →
      uploadLoop ω c d a (t + 1) =
        (.ok (some "upload_failed"), List.replicate (t + 1) ⟨0, c⟩,
          List.replicate t d) := by
  intro t
  induction t with
  | zero =>
    intro a h
    simp [uploadLoop, h a le_rfl (by omega), List.replicate]
  | succ r ih =>
    intro a h
    have hωa : ω a = .botoErr := h a le_rfl (by omega)
    simp only [uploadLoop, hωa]
    rw [ih (a + 1) (fun b h1 h2 => h b (by omega) (by omega))]
    simp [List.replicate]

/-- When the first non-error attempt is attempt `k` (within the budget), the
loop stops there and reports success. -/
theorem uploadLoop_first_ok (ω : Nat → UploadOutcome) (c : Payload) (d : Nat) :
    ∀ t a k, a ≤ k → k ≤ a + t → ω k = .ok →
      (∀ b, a ≤ b → b < k → ω b = .botoErr) →
      uploadLoop ω c d a (t + 1) =
        (.ok (some "upload_successful"), List.replicate (k + 1 - a) ⟨0, c⟩,
          List.replicate (k - a) d) := by
  intro t
  induction t with
  | zero =>
    intro a k h1 h2 hk _
    obtain rfl : k = a := by omega
    have e1 : k + 1 - k = 1 := by omega
    have e2 : k - k = 0 := by omega
    rw [e1, e2]
    simp [uploadLoop, hk, List.replicate]
  | succ r ih =>
    intro a k h1 h2 hk hb
    by_cases hka : k = a
    · subst hka
      have e1 : k + 1 - k = 1 := by omega
      have e2 : k - k = 0 := by omega
      rw [e1, e2]
      simp [uploadLoop, hk, List.replicate]
    · have hωa : ω a = .botoErr := hb a le_rfl (by omega)
      simp only [uploadLoop, hωa]
      rw [ih (a + 1) k (by omega) (by omega) hk (fun b hb1 hb2 => hb b (by omega) hb2)]
      have e1 : k + 1 - a = (k + 1 - (a + 1)) + 1 := by omega
      have e2 : k - a = (k - (a + 1)) + 1 := by omega
      rw [e1, e2]
      simp [List.replicate]

/-- Unfolding: a successful attempt stops the loop. -/
theorem uploadLoop_step_ok {ω : Nat → UploadOutcome} {a : Nat} (c : Payload)
    (d rem : Nat) (hω : ω a = .ok) :
    uploadLoop ω c d a (rem + 1) =
      (.ok (some "upload_successful"), [⟨0, c⟩], []) := by
  cases rem <;> simp [uploadLoop, hω]

/-- Unfolding: a non-SDK exception propagates out of the loop. -/
theorem uploadLoop_step_other {ω : Nat → UploadOutcome} {a : Nat} (c : Payload)
    (d rem : Nat) (hω : ω a = .otherExc) :
    uploadLoop ω c d a (rem + 1) = (.error .otherExc, [⟨0, c⟩], []) := by
  cases rem <;> simp [uploadLoop, hω]

/-- Unfolding: an SDK error on the last attempt gives up. -/
theorem uploadLoop_step_boto_last {ω : Nat → UploadOutcome} {a : Nat}
    (c : Payload) (d : Nat) (hω : ω a = .botoErr) :
    uploadLoop ω c d a 1 = (.ok (some "upload_failed"), [⟨0, c⟩], []) := by
  simp [uploadLoop, hω]

/-- Unfolding: an SDK error with attempts left sleeps and retries. -/
theorem uploadLoop_step_boto {ω : Nat → UploadOutcome} {a : Nat} (c : Payload)
    (d r : Nat) (hω : ω a = .botoErr) :
    uploadLoop ω c d a (r + 1 + 1) =
      ((uploadLoop ω c d (a + 1) (r + 1)).1,
        ⟨0, c⟩ :: (uploadLoop ω c d (a + 1) (r + 1)).2.1,
        d :: (uploadLoop ω c d (a + 1) (r + 1)).2.2) := by
  simp [uploadLoop, hω]

/-- Every attempt the loop performs sends from position `0` with the full
buffer content. -/
theorem uploadLoop_attempts (ω : Nat → UploadOutcome) (c : Payload) (d : Nat) :
    ∀ rem a att, att ∈ (uploadLoop ω c d a rem).2.1 → att = ⟨0, c⟩ := by
  intro rem
  induction rem with
  | zero => intro a att h; simp [uploadLoop] at h
  | succ n ih =>
    intro a att h
    cases n with
    | zero =>
      cases hω : ω a with
      | ok => rw [uploadLoop_step_ok c d 0 hω] at h; exact List.mem_singleton.mp h
      | botoErr =>
        rw [uploadLoop_step_boto_last c d hω] at h
        exact List.mem_singleton.mp h
      | otherExc =>
        rw [uploadLoop_step_other c d 0 hω] at h
        exact List.mem_singleton.mp h
    | succ r =>
      cases hω : ω a with
      | ok =>
        rw [uploadLoop_step_ok c d (r + 1) hω] at h
        exact List.mem_singleton.mp h
      | otherExc =>
        rw [uploadLoop_step_other c d (r + 1) hω] at h
        exact List.mem_singleton.mp h
      | botoErr =>
        rw [uploadLoop_step_boto c d r hω] at h
        rcases List.mem_cons.mp h with h' | h'
        · exact h'
        · exact ih (a + 1) att h'

/-- A response outside the forcelist is returned immediately, whatever the
remaining retry budget. -/
theorem retryLoop_stop (fl : List Nat) (ω : Nat → Nat) (i total : Nat)
    (h : fl.contains (ω i) = false) :
    retryLoop fl ω i total = (some (ω i), 1, []) := by
  have h' : ω i ∉ fl := by simpa using h
  cases total <;> simp [retryLoop, h']

/-- An exhausted budget on a forcelisted response raises `MaxRetryError`. -/
theorem retryLoop_exhaust (fl : List Nat) (ω : Nat → Nat) (i : Nat)
    (h : fl.contains (ω i) = true) :
    retryLoop fl ω i 0 = (none, 1, []) := by
  have h' : ω i ∈ fl := by simpa using h
  simp [retryLoop, h']

/-- A forcelisted response with budget left sleeps and retries. -/
theorem retryLoop_step (fl : List Nat) (ω : Nat → Nat) (i t : Nat)
    (h : fl.contains (ω i) = true) :
    retryLoop fl ω i (t + 1) =
      ((retryLoop fl ω (i + 1) t).1, (retryLoop fl ω (i + 1) t).2.1 + 1,
        (2 * 2 ^ i) :: (retryLoop fl ω (i + 1) t).2.2) := by
  have h' : ω i ∈ fl := by simpa using h
  simp [retryLoop, h']

/-- A character list beginning with `http://` does not begin with
`https://` (they differ at index 4). -/
theorem not_https_chars :
    ∀ l : List Char,
      List.isPrefixOf ['h', 't', 't', 'p', ':', '/', '/'] l = true →
      List.isPrefixOf ['h', 't', 't', 'p', 's', ':', '/', '/'] l = false := by
  intro l h
  match l with
  | [] => simp [List.isPrefixOf] at h
  | [c0] => simp [List.isPrefixOf] at h
  | [c0, c1] => simp [List.isPrefixOf] at h
  | [c0, c1, c2] => simp [List.isPrefixOf] at h
  | [c0, c1, c2, c3] => simp [List.isPrefixOf] at h
  | c0 :: c1 :: c2 :: c3 :: c4 :: rest =>
    simp [List.isPrefixOf] at h ⊢
    obtain ⟨h0, h1, h2, h3, h4, _⟩ := h
    subst h0; subst h1; subst h2; subst h3; subst h4
    intro _ _ _ _ hbad
    exact absurd hbad (by decide)

/-- A URL string beginning with `http://` does not match the `https://`
adapter prefix. -/
theorem not_https_of_http (url : String)
    (h : "http://".toList.isPrefixOf url.toList = true) :
    "https://".toList.isPrefixOf url.toList = false := by
  have e1 : "http://".toList = ['h', 't', 't', 'p', ':', '/', '/'] := rfl
  have e2 : "https://".toList = ['h', 't', 't', 'p', 's', ':', '/', '/'] := rfl
  rw [e1] at h
  rw [e2]
  exact not_https_chars url.toList h

/-! ## Claims -/

/-- C8: for every input that is empty or absent (the empty list, or no value
at all), the Transformer fails with the explicit `EmptyInput` error signal
(`ValueError("No data provided for processing")`) and never returns a
serialized payload. -/
theorem claim8_empty_input (d : Option (List Record)) (h : d = none ∨ d = some []) :
    processDataE d = .error .emptyInput ∧ process_data d = none := by
  rcases h with h | h <;> subst h <;> exact ⟨rfl, rfl⟩

/-- Witness for C8 at the concrete input `some []`. -/
theorem claim8_witness :
    ((some [] : Option (List Record)) = none ∨
        (some [] : Option (List Record)) = some []) ∧
      (processDataE (some []) = .error .emptyInput ∧ process_data (some []) = none) :=
  ⟨Or.inr rfl, claim8_empty_input (some []) (Or.inr rfl)⟩

/-- C5 counterexample: a heterogeneous batch with one filterable record
(`price = 100`) and one record whose price is the string `"n/a"` does NOT
produce a payload — the pandas comparison raises `TypeError`, the blanket
handler catches it and `process_data` returns `None`, failing the whole
batch, contrary to the claim that such records are merely excluded. -/
theorem claim5_counterexample :
    processDataE (some [[("price", Scalar.num 100)], [("price", Scalar.str "n/a")]]) =
        .error .typeError ∧
      process_data (some [[("price", Scalar.num 100)], [("price", Scalar.str "n/a")]]) =
        none := by decide

/-- C5 amended: the Transformer fails closed only on records with a MISSING
(or null) price when the column stays numeric: a non-empty batch with no
string-valued price and at least one numeric price yields a payload in which
non-filterable records are simply excluded; but a batch containing any
string-valued price fails as a whole (`TypeError` caught, `None`
returned). -/
theorem claim5_amended (l : List Record) (hne : l ≠ []) :
    (l.any isStrPrice = false → l.any isNumPrice = true →
      processDataE (some l) =
        .ok ⟨colsOf l, (l.filter passesFilter).map (rowOf (colsOf l))⟩) ∧
    (l.any isStrPrice = true →
      processDataE (some l) = .error .typeError ∧ process_data (some l) = none) := by
  constructor
  · intro hstr hnum
    exact processDataE_ok_of_numeric hne hstr hnum
  · intro hstr
    obtain ⟨r₀, rest, rfl⟩ : ∃ a b, l = a :: b := by
      cases l with
      | nil => exact absurd rfl hne
      | cons a b => exact ⟨a, b, rfl⟩
    have hhas : (r₀ :: rest).any hasPrice = true := by
      obtain ⟨r, hr, hp⟩ := List.any_eq_true.mp hstr
      exact List.any_eq_true.mpr ⟨r, hr, hasPrice_of_isStrPrice hp⟩
    have h1 : processDataE (some (r₀ :: rest)) = .error .typeError := by
      simp [processDataE, hhas, hstr]
    exact ⟨h1, by simp [process_data, h1, Except.toOption]⟩

/-- Witness for C5 (amended) on the batch `[{price: 100}, {}]`: the record
missing the field is excluded and a payload is produced. -/
theorem claim5_witness :
    processDataE (some [[("price", Scalar.num 100)], []]) =
      .ok ⟨colsOf [[("price", Scalar.num 100)], []],
        (([[("price", Scalar.num 100)], []] : List Record).filter passesFilter).map
          (rowOf (colsOf [[("price", Scalar.num 100)], []]))⟩ :=
  (claim5_amended [[("price", Scalar.num 100)], []] (by decide)).1 (by decide) (by decide)

/-- C7: for a non-empty batch in which every record has a numeric price and
at least one passes the filter, the Transformer succeeds with one header row
(the DataFrame's columns) followed by one data row per record with
`price > 50`, in original batch order, and the header depends only on the
key shape of the input (stable across calls for the same shape). -/
theorem claim7_transform_shape (l : List Record) (hne : l ≠ [])
    (hall : ∀ r ∈ l, isNumPrice r = true) (hgt : l.any passesFilter = true) :
    ∃ p, processDataE (some l) = .ok p ∧
      p.header = colsOf l ∧
      p.rows = (l.filter passesFilter).map (rowOf (colsOf l)) ∧
      p.rows.length = (l.filter passesFilter).length ∧
      (∀ l' p', l'.map (fun r => r.map Prod.fst) = l.map (fun r => r.map Prod.fst) →
        processDataE (some l') = .ok p' → p'.header = p.header) := by
  have hstr : l.any isStrPrice = false := by
    cases hb : l.any isStrPrice
    · rfl
    · obtain ⟨r, hr, hp⟩ := List.any_eq_true.mp hb
      obtain ⟨s, hs⟩ := isStrPrice_iff.mp hp
      obtain ⟨n, hn⟩ := isNumPrice_iff.mp (hall r hr)
      exact absurd hs (by simp [hn])
  have hnum : l.any isNumPrice = true := by
    obtain ⟨r, hr, _⟩ := List.any_eq_true.mp hgt
    exact List.any_eq_true.mpr ⟨r, hr, hall r hr⟩
  refine ⟨⟨colsOf l, (l.filter passesFilter).map (rowOf (colsOf l))⟩,
    processDataE_ok_of_numeric hne hstr hnum, rfl, rfl, by simp, ?_⟩
  intro l' p' hshape h'
  have : colsOf l' = colsOf l := by unfold colsOf; rw [hshape]
  rw [processDataE_header h', this]

/-- Witness for C7 on the spec's end-to-end example
`[{"price": 100}, {"price": 10}]`. -/
theorem claim7_witness :
    ∃ p, processDataE (some [[("price", Scalar.num 100)], [("price", Scalar.num 10)]]) =
        .ok p ∧
      p.header = colsOf [[("price", Scalar.num 100)], [("price", Scalar.num 10)]] ∧
      p.rows = (([[("price", Scalar.num 100)], [("price", Scalar.num 10)]] :
            List Record).filter passesFilter).map
          (rowOf (colsOf [[("price", Scalar.num 100)], [("price", Scalar.num 10)]])) ∧
      p.rows.length = (([[("price", Scalar.num 100)], [("price", Scalar.num 10)]] :
            List Record).filter passesFilter).length ∧
      (∀ l' p', l'.map (fun r => r.map Prod.fst) =
          ([[("price", Scalar.num 100)], [("price", Scalar.num 10)]] :
            List Record).map (fun r => r.map Prod.fst) →
        processDataE (some l') = .ok p' → p'.header = p.header) :=
  claim7_transform_shape _ (by decide) (by decide) (by decide)

/-- C4 counterexample: when the storage call raises an exception that is not
a `BotoCoreError`/`ClientError`, `upload_to_s3` does NOT return a terminal
status — the exception propagates past its boundary. -/
theorem claim4_counterexample :
    (upload_to_s3 (fun _ => UploadOutcome.otherExc) emptyPayload 3 5).result =
      .error .otherExc := by decide

/-- C4 amended: provided every exception the storage call raises is an SDK
error (`BotoCoreError`/`ClientError`), `upload_to_s3` never raises past its
boundary: it returns one of the two terminal statuses. -/
theorem claim4_amended (ω : Nat → UploadOutcome) (content : Payload)
    (retries delay : Nat) (h1 : 1 ≤ retries)
    (hb : ∀ b, 1 ≤ b → b ≤ retries → ω b ≠ .otherExc) :
    ∃ s, (upload_to_s3 ω content retries delay).result = .ok (some s) ∧
      (s = "upload_successful" ∨ s = "upload_failed") := by
  obtain ⟨s, hs, hc⟩ :=
    uploadLoop_terminal ω content delay retries 1 h1
      (fun b hb1 hb2 => hb b hb1 (by omega))
  exact ⟨s, hs, hc⟩

/-- Witness for C4 (amended) with an SDK error on every attempt. -/
theorem claim4_witness :
    (1 ≤ 3 ∧ ∀ b, 1 ≤ b → b ≤ 3 →
        (fun _ => UploadOutcome.botoErr) b ≠ UploadOutcome.otherExc) ∧
      ∃ s, (upload_to_s3 (fun _ => UploadOutcome.botoErr) emptyPayload 3 5).result =
          .ok (some s) ∧ (s = "upload_successful" ∨ s = "upload_failed") :=
  ⟨⟨by omega, fun b _ _ h => nomatch h⟩,
    claim4_amended (fun _ => UploadOutcome.botoErr) emptyPayload 3 5 (by omega)
      (fun b _ _ h => nomatch h)⟩

/-- C9: with the caller's `retries=3, delay=5`, the Uploader performs exactly
3 attempts with a fixed 5-second delay between consecutive attempts when the
storage client errors on every attempt, then reports failure; it stops
immediately and reports success on the first attempt that does not error;
and every attempt sends from buffer position 0 with the full content. -/
theorem claim9_upload_policy (ω : Nat → UploadOutcome) (content : Payload) :
    ((∀ b, 1 ≤ b → b ≤ 3 → ω b = .botoErr) →
      upload_to_s3 ω content 3 5 =
        ⟨.ok (some "upload_failed"), List.replicate 3 ⟨0, content⟩, [5, 5]⟩) ∧
    (∀ k, 1 ≤ k → k ≤ 3 → ω k = .ok →
      (∀ b, 1 ≤ b → b < k → ω b = .botoErr) →
      upload_to_s3 ω content 3 5 =
        ⟨.ok (some "upload_successful"), List.replicate k ⟨0, content⟩,
          List.replicate (k - 1) 5⟩) ∧
    (∀ att ∈ (upload_to_s3 ω content 3 5).attempts,
      att.posAtSend = 0 ∧ att.body = content) := by
  refine ⟨?_, ?_, ?_⟩
  · intro h
    have h2 := uploadLoop_all_botoErr ω content 5 2 1 (fun b hb1 hb2 => h b hb1 (by omega))
    norm_num at h2
    simp [upload_to_s3, h2, List.replicate]
  · intro k h1 h2 hk hb
    have h3 := uploadLoop_first_ok ω content 5 2 1 k h1 (by omega) hk hb
    norm_num at h3
    simp [upload_to_s3, h3]
  · intro att h
    have := uploadLoop_attempts ω content 5 3 1 att h
    simp [this]

/-- Witness for C9 with an SDK error on every attempt. -/
theorem claim9_witness :
    upload_to_s3 (fun _ => UploadOutcome.botoErr) emptyPayload 3 5 =
      ⟨.ok (some "upload_failed"), List.replicate 3 ⟨0, emptyPayload⟩, [5, 5]⟩ :=
  (claim9_upload_policy (fun _ => UploadOutcome.botoErr) emptyPayload).1
    (fun _ _ _ => rfl)

/-- C6 counterexample: on a persistent 503 from an https endpoint the
Fetcher issues 4 requests (`Retry(total=3)` = one initial request plus three
retries), not "up to 3 attempts total" as claimed. -/
theorem claim6_counterexample :
    (fetch_data_with_retry "https://api.example.com" (fun _ => 503) none).requests = 4 ∧
      ¬((fetch_data_with_retry "https://api.example.com" (fun _ => 503) none).requests ≤ 3) := by
  decide

/-- C6 amended: on an https endpoint the Fetcher issues exactly 1 request on
a first 200 response (returning the parsed body); up to 4 requests total
(one initial plus 3 retries, exponential backoff sleeps 2, 4, 8 with base
factor 2) when every response is in the transient forcelist
{500, 502, 503, 504}; and exactly 1 request with no retry on a 404 or any
other response outside the forcelist. -/
theorem claim6_amended (url : String) (ω : Nat → Nat) (parsed : Option (List Record))
    (hs : "https://".toList.isPrefixOf url.toList = true) :
    (ω 0 = 200 → fetch_data_with_retry url ω parsed = ⟨parsed, 1, []⟩) ∧
    ((∀ i, i < 4 → statusForcelist.contains (ω i) = true) →
      fetch_data_with_retry url ω parsed = ⟨none, 4, [2, 4, 8]⟩) ∧
    (ω 0 = 404 → fetch_data_with_retry url ω parsed = ⟨none, 1, []⟩) ∧
    (statusForcelist.contains (ω 0) = false →
      (fetch_data_with_retry url ω parsed).requests = 1 ∧
        (fetch_data_with_retry url ω parsed).sleeps = []) := by
  have hs' : ['h', 't', 't', 'p', 's', ':', '/', '/'] <+: url.data := by
    simpa using hs
  refine ⟨?_, ?_, ?_, ?_⟩
  · intro h200
    have hstop := retryLoop_stop statusForcelist ω 0 3 (by rw [h200]; decide)
    simp [fetch_data_with_retry, hs', hstop, h200]
  · intro hf
    have e : retryLoop statusForcelist ω 0 3 = (none, 4, [2, 4, 8]) := by
      rw [retryLoop_step statusForcelist ω 0 2 (hf 0 (by omega)),
        retryLoop_step statusForcelist ω 1 1 (hf 1 (by omega)),
        retryLoop_step statusForcelist ω 2 0 (hf 2 (by omega)),
        retryLoop_exhaust statusForcelist ω 3 (hf 3 (by omega))]
      norm_num
    simp [fetch_data_with_retry, hs', e]
  · intro h404
    have hstop := retryLoop_stop statusForcelist ω 0 3 (by rw [h404]; decide)
    simp [fetch_data_with_retry, hs', hstop, h404]
  · intro hnf
    have hstop := retryLoop_stop statusForcelist ω 0 3 hnf
    by_cases hc : 400 ≤ ω 0 ∧ ω 0 < 600 <;>
      simp [fetch_data_with_retry, hs', hstop, hc]

/-- Witness for C6 (amended) on a persistent 503. -/
theorem claim6_witness :
    fetch_data_with_retry "https://api.example.com" (fun _ => 503) none =
      ⟨none, 4, [2, 4, 8]⟩ :=
  (claim6_amended "https://api.example.com" (fun _ => 503) none (by decide)).2.1
    (fun i _ => by decide)

/-- C10: the retry adapter is mounted only for https endpoints: for every
URL beginning with `http://`, `fetch_data_with_retry` issues exactly one
request with no retries and no backoff, regardless of the response status
(including the transient 5xx statuses retried on https). -/
theorem claim10_http_no_retry (url : String) (ω : Nat → Nat)
    (parsed : Option (List Record))
    (h : "http://".toList.isPrefixOf url.toList = true) :
    (fetch_data_with_retry url ω parsed).requests = 1 ∧
      (fetch_data_with_retry url ω parsed).sleeps = [] := by
  have hm : ¬(['h', 't', 't', 'p', 's', ':', '/', '/'] <+: url.data) := by
    have h2 : (['h', 't', 't', 'p', 's', ':', '/', '/'].isPrefixOf url.data) = false := by
      simpa using not_https_of_http url h
    intro hc
    rw [← List.isPrefixOf_iff_prefix, h2] at hc
    exact Bool.noConfusion hc
  have hstop := retryLoop_stop [] ω 0 0 rfl
  by_cases hc : 400 ≤ ω 0 ∧ ω 0 < 600 <;>
    simp [fetch_data_with_retry, hm, hstop, hc]

/-- Witness for C10 on a persistent-503 http endpoint. -/
theorem claim10_witness :
    (fetch_data_with_retry "http://api.example.com" (fun _ => 503) none).requests = 1 ∧
      (fetch_data_with_retry "http://api.example.com" (fun _ => 503) none).sleeps = [] :=
  claim10_http_no_retry "http://api.example.com" (fun _ => 503) none (by decide)

/-- Under SDK-only storage errors, `upload_to_s3` with the caller's
arguments returns a terminal status. -/
theorem upload_no_exc (w : World)
    (hb : ∀ a, a < 4 → w.upload a ≠ UploadOutcome.otherExc) (c : Payload) :
    ∃ s, (upload_to_s3 w.upload c 3 5).result = .ok (some s) ∧
      (s = "upload_successful" ∨ s = "upload_failed") := by
  obtain ⟨s, hs, hc⟩ :=
    uploadLoop_terminal w.upload c 5 3 1 (by omega)
      (fun b h1 h2 => hb b (by omega))
  exact ⟨s, hs, hc⟩

/-- The upload status for the caller's arguments is independent of the
buffer content. -/
theorem upload_result_content (ω : Nat → UploadOutcome) (c c' : Payload) :
    (upload_to_s3 ω c 3 5).result = (upload_to_s3 ω c' 3 5).result :=
  uploadLoop_fst_content ω 5 3 1 c c'

/-- Exhaustive branch analysis of `lambda_handler` when the storage call
raises only SDK error classes: exactly one of the five exit paths is taken,
each with its fixed response and single notification. -/
theorem handler_branches (w : World)
    (hb : ∀ a, a < 4 → w.upload a ≠ UploadOutcome.otherExc) :
    (¬ validateOk w ∧ lambda_handler w =
        ⟨.ok (some ⟨500, "Missing required environment variables."⟩),
          [notify_failure "❌ Missing required environment variables."]⟩) ∨
    (validateOk w ∧ truthyData (fetchData w) = false ∧ lambda_handler w =
        ⟨.ok (some ⟨500, "Data fetch failed."⟩),
          [notify_failure "❌ Data pipeline failed at the Fetch Data stage."]⟩) ∨
    (validateOk w ∧ truthyData (fetchData w) = true ∧ ¬ transformOk w ∧
      lambda_handler w =
        ⟨.ok (some ⟨500, "Data processing failed."⟩),
          [notify_failure "❌ Data pipeline failed at the Process Data stage."]⟩) ∨
    (validateOk w ∧ truthyData (fetchData w) = true ∧ transformOk w ∧ ¬ uploadOk w ∧
      lambda_handler w =
        ⟨.ok (some ⟨500, "S3 upload failed."⟩),
          [notify_failure "❌ Data pipeline failed during S3 upload."]⟩) ∨
    (validateOk w ∧ truthyData (fetchData w) = true ∧ transformOk w ∧ uploadOk w ∧
      lambda_handler w =
        ⟨.ok (some ⟨200, "Pipeline completed successfully."⟩),
          [notify_success "🏁 ✅ All pipeline processes completed successfully!"]⟩) := by
  rcases hv : validate_environment_vars w.env requiredVars with _ | cfg
  · exact Or.inl ⟨by simp [validateOk, hv], by simp [lambda_handler, hv]⟩
  · have hvOk : validateOk w := by simp [validateOk, hv]
    cases hd : truthyData (fetchData w) with
    | false =>
      have hd' : truthyData
          (fetch_data_with_retry ((w.env "API_URL").getD "") w.status w.parsed).data =
            false := hd
      exact Or.inr (Or.inl ⟨hvOk, rfl, by simp [lambda_handler, hv, hd']⟩)
    | true =>
      have hd' : truthyData
          (fetch_data_with_retry ((w.env "API_URL").getD "") w.status w.parsed).data =
            true := hd
      rcases hp : process_data (fetchData w) with _ | txt
      · have hnt : ¬ transformOk w := by
          intro h
          obtain ⟨p, hp2⟩ := h
          have h3 : process_data (fetchData w) = some p := by
            simp [process_data, hp2, Except.toOption]
          rw [hp] at h3
          exact Option.noConfusion h3
        have hp' : process_data
            (fetch_data_with_retry ((w.env "API_URL").getD "") w.status w.parsed).data =
              none := hp
        exact Or.inr (Or.inr (Or.inl
          ⟨hvOk, rfl, hnt, by simp [lambda_handler, hv, hd', hp']⟩))
      · have ht : transformOk w := by
          cases hq : processDataE (fetchData w) with
          | ok p => exact ⟨p, hq⟩
          | error e =>
            have h3 : process_data (fetchData w) = none := by
              simp [process_data, hq, Except.toOption]
            rw [hp] at h3
            exact Option.noConfusion h3
        have hp' : process_data
            (fetch_data_with_retry ((w.env "API_URL").getD "") w.status w.parsed).data =
              some txt := hp
        obtain ⟨s, hs, hcase⟩ := upload_no_exc w hb txt
        rcases hcase with rfl | rfl
        · have hup : uploadOk w := by
            unfold uploadOk
            rw [upload_result_content w.upload emptyPayload txt]
            exact hs
          exact Or.inr (Or.inr (Or.inr (Or.inr
            ⟨hvOk, rfl, ht, hup, by simp [lambda_handler, hv, hd', hp', hs]⟩)))
        · have hnup : ¬ uploadOk w := by
            unfold uploadOk
            rw [upload_result_content w.upload emptyPayload txt, hs]
            simp
          exact Or.inr (Or.inr (Or.inr (Or.inl
            ⟨hvOk, rfl, ht, hnup, by simp [lambda_handler, hv, hd', hp', hs]⟩)))

/-- C1 counterexample: in a run where every earlier stage succeeds but the
storage call raises a non-SDK exception on the first upload attempt, the
exception propagates out of `lambda_handler` and ZERO notifications are
issued — a path with no notification, contrary to the claim. -/
theorem claim1_counterexample :
    (lambda_handler
      ⟨fun _ => some "x", fun _ => 200, some [[("price", Scalar.num 100)]],
        fun _ => UploadOutcome.otherExc⟩).notifications = [] ∧
    (lambda_handler
      ⟨fun _ => some "x", fun _ => 200, some [[("price", Scalar.num 100)]],
        fun _ => UploadOutcome.otherExc⟩).outcome = .error .otherExc := by decide

/-- C1 amended: provided the storage call raises only SDK error classes
(`BotoCoreError`/`ClientError`), every invocation issues exactly one
notification call: a failure notification on each failure exit path and a
success notification on the full-success path. -/
theorem claim1_amended (w : World)
    (hb : ∀ a, a < 4 → w.upload a ≠ UploadOutcome.otherExc) :
    (lambda_handler w).notifications.length = 1 ∧
    (∀ r, (lambda_handler w).outcome = .ok (some r) →
      (r.statusCode = 200 → ∃ m, (lambda_handler w).notifications = [notify_success m]) ∧
      (r.statusCode = 500 → ∃ m, (lambda_handler w).notifications = [notify_failure m])) := by
  rcases handler_branches w hb with ⟨_, he⟩ | ⟨_, _, he⟩ | ⟨_, _, _, he⟩ |
    ⟨_, _, _, _, he⟩ | ⟨_, _, _, _, he⟩ <;>
    refine ⟨by rw [he]; rfl, ?_⟩ <;> intro r hr <;> rw [he] at hr <;>
    (obtain rfl : _ = r := by simpa using hr) <;>
    refine ⟨fun h200 => ?_, fun h500 => ?_⟩
  · exact absurd h200 (by decide)
  · exact ⟨_, by rw [he]⟩
  · exact absurd h200 (by decide)
  · exact ⟨_, by rw [he]⟩
  · exact absurd h200 (by decide)
  · exact ⟨_, by rw [he]⟩
  · exact absurd h200 (by decide)
  · exact ⟨_, by rw [he]⟩
  · exact ⟨_, by rw [he]⟩
  · exact absurd h500 (by decide)

/-- Witness for C1 (amended) on a fully successful run. -/
theorem claim1_witness :
    (∀ a, a < 4 →
      (⟨fun _ => some "x", fun _ => 200, some [[("price", Scalar.num 100)]],
          fun _ => UploadOutcome.ok⟩ : World).upload a ≠ UploadOutcome.otherExc) ∧
    (lambda_handler
      ⟨fun _ => some "x", fun _ => 200, some [[("price", Scalar.num 100)]],
        fun _ => UploadOutcome.ok⟩).notifications.length = 1 :=
  ⟨by decide, (claim1_amended _ (by decide)).1⟩

/-- C2 counterexample: in a run where every earlier stage succeeds but the
storage call raises a non-SDK exception, `lambda_handler` returns no
structured result at all — the exception escapes — contrary to the claim
that every invocation returns a structured result. -/
theorem claim2_counterexample :
    (lambda_handler
      ⟨fun _ => some "y", fun _ => 200, some [[("price", Scalar.num 60)]],
        fun _ => UploadOutcome.otherExc⟩).outcome = .error .otherExc ∧
    ∀ r, (lambda_handler
      ⟨fun _ => some "y", fun _ => 200, some [[("price", Scalar.num 60)]],
        fun _ => UploadOutcome.otherExc⟩).outcome ≠ .ok (some r) := by
  constructor
  · decide
  · intro r h
    rw [show (lambda_handler
        ⟨fun _ => some "y", fun _ => 200, some [[("price", Scalar.num 60)]],
          fun _ => UploadOutcome.otherExc⟩).outcome = .error .otherExc from by decide] at h
    exact Except.noConfusion h

/-- C2 amended: provided the storage call raises only SDK error classes,
`lambda_handler` returns a structured result whose status code is 200 iff
all four stages succeed and 500 on every failure branch, each branch's body
naming the failed stage. -/
theorem claim2_amended (w : World)
    (hb : ∀ a, a < 4 → w.upload a ≠ UploadOutcome.otherExc) :
    ∃ r, (lambda_handler w).outcome = .ok (some r) ∧
      (r.statusCode = 200 ↔ (validateOk w ∧ fetchOk w ∧ transformOk w ∧ uploadOk w)) ∧
      (r.statusCode = 200 ∨ r.statusCode = 500) ∧
      (r.statusCode = 200 → r.body = "Pipeline completed successfully.") ∧
      (¬ validateOk w → r.body = "Missing required environment variables.") ∧
      (validateOk w → truthyData (fetchData w) = false → r.body = "Data fetch failed.") ∧
      (validateOk w → truthyData (fetchData w) = true → ¬ transformOk w →
        r.body = "Data processing failed.") ∧
      (validateOk w → truthyData (fetchData w) = true → transformOk w → ¬ uploadOk w →
        r.body = "S3 upload failed.") := by
  rcases handler_branches w hb with ⟨hnv, he⟩ | ⟨hv, hd, he⟩ | ⟨hv, hd, hnt, he⟩ |
    ⟨hv, hd, ht, hnu, he⟩ | ⟨hv, hd, ht, hu, he⟩
  · refine ⟨⟨500, "Missing required environment variables."⟩, by rw [he], ?_, Or.inr rfl,
      fun h => absurd h (by decide), fun _ => rfl,
      fun hv' _ => absurd hv' hnv, fun hv' _ _ => absurd hv' hnv,
      fun hv' _ _ _ => absurd hv' hnv⟩
    exact iff_of_false (by decide) (fun h => hnv h.1)
  · have hnt : ¬ transformOk w := by
      intro h
      obtain ⟨p, hp⟩ := h
      rw [processDataE_of_not_truthy hd] at hp
      exact Except.noConfusion hp
    refine ⟨⟨500, "Data fetch failed."⟩, by rw [he], ?_, Or.inr rfl,
      fun h => absurd h (by decide), fun hnv => absurd hv hnv,
      fun _ _ => rfl,
      fun _ htr _ => by rw [hd] at htr; exact Bool.noConfusion htr,
      fun _ htr _ _ => by rw [hd] at htr; exact Bool.noConfusion htr⟩
    exact iff_of_false (by decide) (fun h => hnt h.2.2.1)
  · refine ⟨⟨500, "Data processing failed."⟩, by rw [he], ?_, Or.inr rfl,
      fun h => absurd h (by decide), fun hnv => absurd hv hnv,
      fun _ hf => by rw [hd] at hf; exact Bool.noConfusion hf,
      fun _ _ _ => rfl,
      fun _ _ ht' _ => absurd ht' hnt⟩
    exact iff_of_false (by decide) (fun h => hnt h.2.2.1)
  · refine ⟨⟨500, "S3 upload failed."⟩, by rw [he], ?_, Or.inr rfl,
      fun h => absurd h (by decide), fun hnv => absurd hv hnv,
      fun _ hf => by rw [hd] at hf; exact Bool.noConfusion hf,
      fun _ _ hnt' => absurd ht hnt',
      fun _ _ _ _ => rfl⟩
    exact iff_of_false (by decide) (fun h => hnu h.2.2.2)
  · refine ⟨⟨200, "Pipeline completed successfully."⟩, by rw [he], ?_, Or.inl rfl,
      fun _ => rfl, fun hnv => absurd hv hnv,
      fun _ hf => by rw [hd] at hf; exact Bool.noConfusion hf,
      fun _ _ hnt' => absurd ht hnt',
      fun _ _ _ hnu' => absurd hu hnu'⟩
    exact iff_of_true rfl ⟨hv, isSome_of_truthy hd, ht, hu⟩

/-- Witness for C2 (amended) on a fully successful run. -/
theorem claim2_witness :
    (∀ a, a < 4 →
      (⟨fun _ => some "x", fun _ => 200, some [[("price", Scalar.num 100)]],
          fun _ => UploadOutcome.ok⟩ : World).upload a ≠ UploadOutcome.otherExc) ∧
    ∃ r, (lambda_handler
        ⟨fun _ => some "x", fun _ => 200, some [[("price", Scalar.num 100)]],
          fun _ => UploadOutcome.ok⟩).outcome = .ok (some r) ∧
      (r.statusCode = 200 ↔
        (validateOk ⟨fun _ => some "x", fun _ => 200,
            some [[("price", Scalar.num 100)]], fun _ => UploadOutcome.ok⟩ ∧
          fetchOk ⟨fun _ => some "x", fun _ => 200,
            some [[("price", Scalar.num 100)]], fun _ => UploadOutcome.ok⟩ ∧
          transformOk ⟨fun _ => some "x", fun _ => 200,
            some [[("price", Scalar.num 100)]], fun _ => UploadOutcome.ok⟩ ∧
          uploadOk ⟨fun _ => some "x", fun _ => 200,
            some [[("price", Scalar.num 100)]], fun _ => UploadOutcome.ok⟩)) ∧
      (r.statusCode = 200 ∨ r.statusCode = 500) ∧
      (r.statusCode = 200 → r.body = "Pipeline completed successfully.") ∧
      (¬ validateOk ⟨fun _ => some "x", fun _ => 200,
          some [[("price", Scalar.num 100)]], fun _ => UploadOutcome.ok⟩ →
        r.body = "Missing required environment variables.") ∧
      (validateOk ⟨fun _ => some "x", fun _ => 200,
          some [[("price", Scalar.num 100)]], fun _ => UploadOutcome.ok⟩ →
        truthyData (fetchData ⟨fun _ => some "x", fun _ => 200,
          some [[("price", Scalar.num 100)]], fun _ => UploadOutcome.ok⟩) = false →
        r.body = "Data fetch failed.") ∧
      (validateOk ⟨fun _ => some "x", fun _ => 200,
          some [[("price", Scalar.num 100)]], fun _ => UploadOutcome.ok⟩ →
        truthyData (fetchData ⟨fun _ => some "x", fun _ => 200,
          some [[("price", Scalar.num 100)]], fun _ => UploadOutcome.ok⟩) = true →
        ¬ transformOk ⟨fun _ => some "x", fun _ => 200,
          some [[("price", Scalar.num 100)]], fun _ => UploadOutcome.ok⟩ →
        r.body = "Data processing failed.") ∧
      (validateOk ⟨fun _ => some "x", fun _ => 200,
          some [[("price", Scalar.num 100)]], fun _ => UploadOutcome.ok⟩ →
        truthyData (fetchData ⟨fun _ => some "x", fun _ => 200,
          some [[("price", Scalar.num 100)]], fun _ => UploadOutcome.ok⟩) = true →
        transformOk ⟨fun _ => some "x", fun _ => 200,
          some [[("price", Scalar.num 100)]], fun _ => UploadOutcome.ok⟩ →
        ¬ uploadOk ⟨fun _ => some "x", fun _ => 200,
          some [[("price", Scalar.num 100)]], fun _ => UploadOutcome.ok⟩ →
        r.body = "S3 upload failed.") :=
  ⟨by decide, claim2_amended _ (by decide)⟩

/-- C3 counterexample: with all configuration present and the API returning
an empty JSON list (fetch succeeds, parse succeeds, value is `[]`), the run
is classified as a FETCH-stage failure ("Data fetch failed.", fetch-stage
notification), not a Transform-stage failure: the orchestrator's `if not
raw_data` truthiness check conflates the empty batch with a fetch error and
`process_data` is never reached. -/
theorem claim3_counterexample :
    lambda_handler ⟨fun _ => some "x", fun _ => 200, some [], fun _ => UploadOutcome.ok⟩ =
      ⟨.ok (some ⟨500, "Data fetch failed."⟩),
        [notify_failure "❌ Data pipeline failed at the Fetch Data stage."]⟩ ∧
    (lambda_handler
        ⟨fun _ => some "x", fun _ => 200, some [], fun _ => UploadOutcome.ok⟩).outcome ≠
      .ok (some ⟨500, "Data processing failed."⟩) := by decide

/-- C3 amended: the Fetcher itself does succeed with the parsed JSON value
even when it is empty, and an empty batch is exactly the Transformer's
`EmptyInput` error; but the Orchestrator's truthiness check intercepts an
empty batch and classifies the run as a Fetch-stage failure, never invoking
the Transformer. -/
theorem claim3_amended :
    (∀ (url : String) (ω : Nat → Nat) (parsed : Option (List Record)), ω 0 = 200 →
      (fetch_data_with_retry url ω parsed).data = parsed) ∧
    processDataE (some []) = .error .emptyInput ∧
    (∀ w : World, validateOk w → fetchData w = some [] →
      lambda_handler w =
        ⟨.ok (some ⟨500, "Data fetch failed."⟩),
          [notify_failure "❌ Data pipeline failed at the Fetch Data stage."]⟩) := by
  refine ⟨?_, rfl, ?_⟩
  · intro url ω parsed h200
    by_cases hm : ['h', 't', 't', 'p', 's', ':', '/', '/'] <+: url.data
    · have hstop := retryLoop_stop statusForcelist ω 0 3 (by rw [h200]; decide)
      simp [fetch_data_with_retry, hm, hstop, h200]
    · have hstop := retryLoop_stop [] ω 0 0 rfl
      simp [fetch_data_with_retry, hm, hstop, h200]
  · intro w hvOk hempty
    obtain ⟨cfg, hv⟩ := Option.isSome_iff_exists.mp hvOk
    have hd : truthyData (fetchData w) = false := by rw [hempty]; rfl
    have hd' : truthyData
        (fetch_data_with_retry ((w.env "API_URL").getD "") w.status w.parsed).data =
          false := hd
    simp [lambda_handler, hv, hd']

/-- Witness for C3 (amended) on a run whose API returns the empty list. -/
theorem claim3_witness :
    validateOk ⟨fun _ => some "y", fun _ => 200, some [], fun _ => UploadOutcome.botoErr⟩ ∧
    lambda_handler
        ⟨fun _ => some "y", fun _ => 200, some [], fun _ => UploadOutcome.botoErr⟩ =
      ⟨.ok (some ⟨500, "Data fetch failed."⟩),
        [notify_failure "❌ Data pipeline failed at the Fetch Data stage."]⟩ :=
  ⟨by unfold validateOk; decide, claim3_amended.2.2 _ (by unfold validateOk; decide) (by decide)⟩

end Pipeline
